import Mathlib

/-!
Shallow embedding of the AgroBert backend (`src/app.py`) and verification of
its specification claims.

The embedding models:
* the SQLite `users` table as a list of `User` records (row order = table order);
* the process-wide `otp_store` dict as an association list keyed by username;
* `random.randint` / `random.uniform` outcomes as explicit parameters;
* Werkzeug's `generate_password_hash` / `check_password_hash` as function
  parameters (they are an external library; the claims only need that the
  stored hash is the one produced for the new password);
* Python's `round` (banker's rounding, half to even) on exact rationals;
* the Twilio SMS call and the Gemini generative collaborator as explicit
  outcome parameters (sent / raised / not configured).
-/

set_option allowUnsafeReducibility true
attribute [local semireducible] Rat.add Rat.mul Rat.inv Rat.sub

namespace AgroBert

/-- Python's `str.lower()` (character-wise; `Char.toLower` is the identity on
the non-ASCII scripts used here, matching CPython on this data). -/
def strLower (s : String) : String := String.mk (s.data.map Char.toLower)

/-- Python's `str.capitalize()`: first character uppercased, the rest
lowercased. -/
def strCapitalize (s : String) : String :=
  match s.data with
  | [] => String.mk []
  | c :: rest => String.mk (c.toUpper :: rest.map Char.toLower)

/-- A row of the `users` table (`CREATE TABLE users` in `init_db`). -/
structure User where
  username : String
  passwordHash : String
  role : String
  email : String
  mobile : String
deriving DecidableEq, Repr

/-- `SELECT * FROM users WHERE username = ? OR email = ? OR mobile = ?` with
`fetchone()`: the first row matching the identifier on any of the three
columns. -/
def find_by_identifier (db : List User) (identifier : String) : Option User :=
  db.find? (fun u => u.username == identifier || u.email == identifier || u.mobile == identifier)

/-- The in-memory `otp_store` dict: an association list username → code. -/
def OtpStore := List (String × String)

/-- Dict lookup `otp_store.get(k)`. -/
def otpLookup (s : OtpStore) (k : String) : Option String :=
  (List.find? (fun p => p.1 == k) s).map Prod.snd

/-- Dict assignment `otp_store[k] = v` (overwrites any previous binding). -/
def otpSet (s : OtpStore) (k v : String) : OtpStore :=
  (k, v) :: List.filter (fun p => p.1 != k) s

/-- Dict deletion `del otp_store[k]`. -/
def otpDel (s : OtpStore) (k : String) : OtpStore :=
  List.filter (fun p => p.1 != k) s

/-- Outcome of the Twilio SMS dispatch attempt in `send_otp`: the client sent
the message, the client raised an exception, or no client is configured. -/
inductive TwilioOutcome
  | sent
  | failed
  | notConfigured
deriving DecidableEq, Repr

/-- Result of a `send_otp` request: HTTP status, message, updated OTP store. -/
structure SendOtpResult where
  status : Nat
  msg : String
  store : OtpStore

/-- `POST /api/send-otp` (`send_otp` in `app.py`). `draw` is the outcome of
`random.randint(100000, 999999)`; the stored code is `str(draw)`. -/
def send_otp (db : List User) (store : OtpStore) (identifier : String)
    (draw : Nat) (tw : TwilioOutcome) : SendOtpResult :=
  match find_by_identifier db identifier with
  | none => ⟨404, "User not found", store⟩
  | some user =>
    let otp := toString draw
    let store1 := otpSet store user.username otp
    match tw with
    | .sent => ⟨200, "OTP sent successfully to your mobile.", store1⟩
    | .failed =>
        ⟨200, "Could not send SMS. For development, please check server console for OTP.", store1⟩
    | .notConfigured =>
        ⟨200, "OTP generated. For development, please check server console.", store1⟩

/-- Result of a `reset_password` request: HTTP status, message, updated users
table, updated OTP store. -/
structure ResetResult where
  status : Nat
  msg : String
  db : List User
  store : OtpStore

/-- `UPDATE users SET password_hash = ? WHERE username = ?`. -/
def update_password (db : List User) (uname newHash : String) : List User :=
  db.map (fun u => if u.username == uname then { u with passwordHash := newHash } else u)

/-- `POST /api/reset-password` (`reset_password` in `app.py`). `hash` models
`generate_password_hash`. The guard `user_to_reset not in otp_store or
otp_store.get(user_to_reset) != otp` is exactly `otpLookup ≠ some otp`. -/
def reset_password (hash : String → String) (db : List User) (store : OtpStore)
    (identifier otp newPassword : String) : ResetResult :=
  match find_by_identifier db identifier with
  | none => ⟨404, "User not found", db, store⟩
  | some user =>
    if otpLookup store user.username = some otp then
      ⟨200, "Password updated successfully",
        update_password db user.username (hash newPassword),
        otpDel store user.username⟩
    else
      ⟨400, "Invalid or expired OTP", db, store⟩

/-- Result of `POST /api/login`: a JWT carrying the identity and the role
claim, or an error status and message. -/
inductive LoginResult
  | token (identity : String) (role : String)
  | err (status : Nat) (msg : String)
deriving DecidableEq, Repr

/-- `POST /api/login` (`login` in `app.py`). `check` models
`check_password_hash(stored_hash, password)`. -/
def login (check : String → String → Bool) (db : List User)
    (username password : String) : LoginResult :=
  match db.find? (fun u => u.username == username) with
  | none => .err 401 "Bad username or password"
  | some user =>
    if check user.passwordHash password then .token username user.role
    else .err 401 "Bad username or password"

/-- Python's built-in `round` on an exact rational: round half to even,
returning an integer. (`Rat.floor` rather than `⌊·⌋` so the definition
evaluates by kernel reduction; the two agree, see `ratFloor_eq`.) -/
def pyRound (q : ℚ) : ℤ :=
  if q - (Rat.floor q : ℚ) < 1/2 then Rat.floor q
  else if 1/2 < q - (Rat.floor q : ℚ) then Rat.floor q + 1
  else if Rat.floor q % 2 = 0 then Rat.floor q else Rat.floor q + 1

/-- The `base_prices` dict in `get_price_prediction`, with its `.get(key, 2500)`
default. -/
def base_prices (c : String) : ℚ :=
  if c == "wheat" then 2200
  else if c == "rice" then 3000
  else if c == "cotton" then 6000
  else if c == "onion" then 1700
  else if c == "potato" then 1500
  else if c == "maize" then 1800
  else if c == "tomato" then 1200
  else if c == "banana" then 1800
  else 2500

/-- The dict returned by `get_price_prediction`. -/
structure PriceReport where
  average_price : ℤ
  low_price : ℤ
  high_price : ℤ
deriving DecidableEq, Repr

/-- `get_price_prediction(commodity, market, days_ahead)` with the three
`random.uniform` outcomes made explicit: `u1 ∈ [-5, 10]`, `u2, u3 ∈ [0.05, 0.15]`. -/
def get_price_prediction (commodity market : String) (daysAhead : ℚ)
    (u1 u2 u3 : ℚ) : PriceReport :=
  let base := base_prices (strLower commodity)
  let avg0 := base + daysAhead * u1
  let avg1 := avg0 * (if strLower market == "mumbai" || strLower market == "delhi"
    then 21/20 else 101/100)
  let avg := pyRound avg1
  { average_price := avg
    low_price := pyRound ((avg : ℚ) * (1 - u2))
    high_price := pyRound ((avg : ℚ) * (1 + u3)) }

/-- The `states` list in `handle_heatmap_data`. -/
def heatmap_states : List String :=
  ["Andhra Pradesh", "Arunachal Pradesh", "Assam", "Bihar", "Chhattisgarh",
   "Goa", "Gujarat", "Haryana", "Himachal Pradesh", "Jharkhand", "Karnataka",
   "Kerala", "Madhya Pradesh", "Maharashtra", "Manipur", "Meghalaya",
   "Mizoram", "Nagaland", "Odisha", "Punjab", "Rajasthan", "Sikkim",
   "Tamil Nadu", "Telangana", "Tripura", "Uttar Pradesh", "Uttarakhand",
   "West Bengal", "Jammu and Kashmir", "Ladakh", "Delhi", "Puducherry",
   "Andaman and Nicobar Islands", "Chandigarh",
   "Dadra and Nagar Haveli and Daman and Diu"]

/-- The base price used by `GET /api/heatmap-data`: the `average_price` of
`get_price_prediction(commodity, "Delhi", 0)`, as a rational. -/
def heatmapBase (commodity : String) (u1 u2 u3 : ℚ) : ℚ :=
  ((get_price_prediction commodity "Delhi" 0 u1 u2 u3).average_price : ℚ)

/-- `GET /api/heatmap-data` (`handle_heatmap_data` in `app.py`): one
`round(base_price * random.uniform(0.85, 1.15))` per state; `draws s` is the
uniform outcome drawn for state `s`. -/
def handle_heatmap_data (commodity : String) (u1 u2 u3 : ℚ)
    (draws : String → ℚ) : List (String × ℤ) :=
  heatmap_states.map (fun s => (s, pyRound (heatmapBase commodity u1 u2 u3 * draws s)))

/-- Python's substring test `needle in haystack`. -/
def strContains (haystack needle : String) : Bool :=
  decide (needle.data <:+: haystack.data)

/-- Split a (reversed) digit list into groups of three for thousands
separators. -/
def chunk3 : List Char → List (List Char)
  | [] => []
  | a :: b :: c :: rest => [a, b, c] :: chunk3 rest
  | l => [l]

/-- Python's `f"{price:,.2f}"` applied to an integer price: decimal digits
grouped in threes by commas, followed by `.00`. -/
def formatPrice (n : ℤ) : String :=
  let ds := Nat.toDigits 10 n.natAbs
  let grouped := (List.intersperse [','] (chunk3 ds.reverse)).flatten.reverse
  (if n < 0 then "-" else "") ++ String.mk grouped ++ ".00"

/-- One language's entry of the `chat_responses` dict. The `price_detail`
template is represented as the function performing its `.format(...)`
substitution. -/
structure ChatResponses where
  price : String
  weather : String
  recommend : String
  greeting : String
  default : String
  price_detail : String → String → String → String

/-- `chat_responses["en"]`. -/
def chat_responses_en : ChatResponses where
  price := "The predicted price is showing an upward trend due to market demand."
  weather := "The current weather forecast is favorable for this crop."
  recommend := "Based on your conditions, Wheat is a good option."
  greeting := "Hello! How can I assist you with AgroBert today?"
  default := "I can help with price predictions, weather impact, and crop recommendations."
  price_detail := fun commodity market price =>
    "The current simulated price for " ++ commodity ++ " in " ++ market
      ++ " is around ₹" ++ price ++ "/quintal. The trend is positive."

/-- `chat_responses["hi"]`. -/
def chat_responses_hi : ChatResponses where
  price := "बाजार की मांग के कारण अनुमानित कीमत में तेजी का रुख दिख रहा है।"
  weather := "वर्तमान मौसम का पूर्वानुमान इस फसल के लिए अनुकूल है।"
  recommend := "आपकी परिस्थितियों के आधार पर, गेहूं एक अच्छा विकल्प है।"
  greeting := "नमस्ते! मैं आज एग्रोबर्ट में आपकी कैसे सहायता कर सकता हूँ?"
  default := "मैं मूल्य भविष्यवाणी, मौसम के प्रभाव और फसल की सिफारिशों में मदद कर सकता हूँ।"
  price_detail := fun commodity market price =>
    market ++ " में " ++ commodity ++ " का वर्तमान सिम्युलेटेड मूल्य लगभग ₹"
      ++ price ++ "/क्विंटल है। प्रवृत्ति सकारात्मक है।"

/-- `chat_responses["kn"]`. -/
def chat_responses_kn : ChatResponses where
  price := "ಮಾರುಕಟ್ಟೆಯ ಬೇಡಿಕೆಯಿಂದಾಗಿ ಊಹಿಸಲಾದ ಬೆಲೆಯು ಏರುಮುಖವಾಗಿದೆ."
  weather := "ಪ್ರಸ್ತುತ ಹವಾಮಾನ ಮುನ್ಸೂಚನೆಯು ಈ ಬೆಳೆಗೆ ಅನುಕೂಲಕರವಾಗಿದೆ."
  recommend := "ನಿಮ್ಮ ಪರಿಸ್ಥಿತಿಗಳ ಆಧಾರದ ಮೇಲೆ, ಗೋಧಿ ಉತ್ತಮ ಆಯ್ಕೆಯಾಗಿದೆ."
  greeting := "ನಮಸ್ಕಾರ! ಇಂದು ನಾನು ನಿಮಗೆ ಆಗ್ರೋಬರ್ಟ್‌ನಲ್ಲಿ ಹೇಗೆ ಸಹಾಯ ಮಾಡಬಹುದು?"
  default := "ನಾನು ಬೆಲೆ ಮುನ್ಸೂಚನೆಗಳು, ಹವಾಮಾನದ ಪ್ರಭಾವ ಮತ್ತು ಬೆಳೆ ಶಿಫಾರಸುಗಳೊಂದಿಗೆ ಸಹಾಯ ಮಾಡಬಹುದು."
  price_detail := fun commodity market price =>
    market ++ " ನಲ್ಲಿ " ++ commodity ++ " ಗಾಗಿ ಪ್ರಸ್ತುತ ಸಿಮ್ಯುಲೇಟೆಡ್ ಬೆಲೆ ಸುಮಾರು ₹"
      ++ price ++ "/ಕ್ವಿಂಟಾಲ್ ಆಗಿದೆ. ಪ್ರವೃತ್ತಿ ಧನಾತ್ಮಕವಾಗಿದೆ."

/-- `chat_responses.get(lang, chat_responses["en"])`. -/
def chat_responses_get (lang : String) : ChatResponses :=
  if lang == "en" then chat_responses_en
  else if lang == "hi" then chat_responses_hi
  else if lang == "kn" then chat_responses_kn
  else chat_responses_en

/-- The greeting keyword list in `handle_chat`. -/
def greeting_keywords : List String := ["hello", "hi", "ನಮಸ್ಕಾರ", "नमस्ते"]

/-- The `commodity_keywords` dict (iteration order = insertion order). -/
def commodity_keywords : List (String × List String) :=
  [("wheat", ["wheat", "गेहूं", "ಗೋಧಿ"]),
   ("rice", ["rice", "चावल", "ಅಕ್ಕಿ"]),
   ("cotton", ["cotton", "कपास", "ಹತ್ತಿ"]),
   ("onion", ["onion", "प्याज", "ಈರುಳ್ಳಿ"]),
   ("potato", ["potato", "आलू", "ಆಲೂಗಡ್ಡೆ"]),
   ("tomato", ["tomato", "टमाटर", "ಟೊಮೆಟೊ"])]

/-- The `MARKET_KEYWORDS` list. -/
def MARKET_KEYWORDS : List String :=
  ["delhi", "mumbai", "bengaluru", "kolkata", "chennai", "pune", "jaipur", "davanagere",
   "lucknow", "kanpur", "nagpur", "indore", "thane", "bhopal", "patna", "shivamogga",
   "ludhiana", "agra", "nashik", "vadodara", "meerut", "rajkot", "varanasi", "hubali",
   "amritsar", "allahabad", "jodhpur", "kochi", "mysuru", "hyderabad", "bhubaneswar"]

/-- The commodity-extraction loop in `handle_chat`: first table entry any of
whose keywords is a substring of the (lowered) query. -/
def findCommodity (q : String) : Option String :=
  (commodity_keywords.find? (fun p => p.2.any (fun k => strContains q k))).map Prod.fst

/-- The market-extraction loop in `handle_chat`: first matching city,
capitalized; default `"Delhi"`. -/
def findMarket (q : String) : String :=
  match MARKET_KEYWORDS.find? (fun m => strContains q m) with
  | some m => strCapitalize m
  | none => "Delhi"

/-- The display-name selection in `handle_chat`: the language-indexed keyword
(1 for `hi`, 2 for `kn`) when it exists, else the capitalized English key. -/
def displayCommodity (lang c : String) : String :=
  let kws := (Option.map Prod.snd (commodity_keywords.find? (fun p => p.1 == c))).getD []
  let idx : Option Nat := if lang == "hi" then some 1
    else if lang == "kn" then some 2 else none
  match idx with
  | none => strCapitalize c
  | some i => if i < kws.length then strCapitalize (kws.getD i "") else strCapitalize c

/-- Outcome of the Gemini collaborator in `handle_chat`: disabled
(`GEMINI_ENABLED` false), the API call raised, or it returned `text`. -/
inductive GeminiOutcome
  | disabled
  | errored
  | ok (text : String)
deriving DecidableEq, Repr

/-- `POST /api/chat` (`handle_chat` in `app.py`). The response body text, as a
function of the query, the language tag, the Gemini outcome and the three
uniform draws consumed by `get_price_prediction` when a commodity matches.
The endpoint always answers 200 with this body. -/
def handle_chat (query lang : String) (gem : GeminiOutcome) (u1 u2 u3 : ℚ) : String :=
  let q := strLower query
  let responses := chat_responses_get lang
  if greeting_keywords.any (fun k => strContains q k) then responses.greeting
  else
    match findCommodity q with
    | some c =>
      let market := findMarket q
      let price := (get_price_prediction c market 7 u1 u2 u3).average_price
      responses.price_detail (displayCommodity lang c) market (formatPrice price)
    | none =>
      if ["price", "ಬೆಲೆ", "दाम"].any (fun k => strContains q k) then responses.price
      else if ["weather", "ಹವಾಮಾನ", "मौसम"].any (fun k => strContains q k) then responses.weather
      else if ["recommend", "ಶಿಫಾರಸು", "सुझाव"].any (fun k => strContains q k) then
        responses.recommend
      else
        match gem with
        | .ok text => text
        | _ => responses.default

/-- Whether any chat rule (greeting, commodity, generic price / weather /
recommendation bucket) matches the lowered query — the final value of
`rule_matched` in `handle_chat`. -/
def ruleMatched (q : String) : Bool :=
  greeting_keywords.any (fun k => strContains q k)
  || (findCommodity q).isSome
  || ["price", "ಬೆಲೆ", "दाम"].any (fun k => strContains q k)
  || ["weather", "ಹವಾಮಾನ", "मौसम"].any (fun k => strContains q k)
  || ["recommend", "ಶಿಫಾರಸು", "सुझाव"].any (fun k => strContains q k)

/-! Helper lemmas about the OTP store and the users table. -/

theorem otpLookup_otpSet_self (s : OtpStore) (k v : String) :
    otpLookup (otpSet s k v) k = some v := by
  simp [otpLookup, otpSet, List.find?]

theorem otpLookup_otpDel_self (s : OtpStore) (k : String) :
    otpLookup (otpDel s k) k = none := by
  simp only [otpLookup, otpDel, Option.map_eq_none', List.find?_eq_none]
  intro x hx
  have h2 := (List.mem_filter.mp hx).2
  simpa using h2

theorem find_by_identifier_update_password (db : List User)
    (uname newHash identifier : String) :
    find_by_identifier (update_password db uname newHash) identifier
      = Option.map
          (fun u => if u.username == uname then { u with passwordHash := newHash } else u)
          (find_by_identifier db identifier) := by
  unfold find_by_identifier update_password
  rw [List.find?_map]
  have hpf : ((fun u : User =>
        u.username == identifier || u.email == identifier || u.mobile == identifier)
      ∘ fun u => if u.username == uname then { u with passwordHash := newHash } else u)
      = (fun u : User =>
        u.username == identifier || u.email == identifier || u.mobile == identifier) := by
    funext u
    by_cases h : u.username == uname <;> simp [Function.comp, h]
  rw [hpf]

/-! Helper lemmas about rounding and string containment. -/

theorem ratFloor_eq (q : ℚ) : Rat.floor q = ⌊q⌋ := by
  rw [Rat.floor_def', Rat.floor_def]

theorem abs_pyRound_sub_le (q : ℚ) : |(pyRound q : ℚ) - q| ≤ 1/2 := by
  have hf : ((⌊q⌋ : ℤ) : ℚ) ≤ q := Int.floor_le q
  have hq : q < (⌊q⌋ : ℚ) + 1 := Int.lt_floor_add_one q
  simp only [pyRound, ratFloor_eq]
  split_ifs with h1 h2 h3 <;> refine abs_le.mpr ⟨?_, ?_⟩ <;> push_cast <;> linarith

theorem base_prices_ge (c : String) : 1200 ≤ base_prices c := by
  unfold base_prices
  split_ifs <;> norm_num

theorem heatmapBase_eq (commodity : String) (u1 u2 u3 : ℚ) :
    heatmapBase commodity u1 u2 u3
      = (pyRound (base_prices (strLower commodity) * (21/20)) : ℚ) := by
  have hcond : (strLower "Delhi" == "mumbai" || strLower "Delhi" == "delhi") = true := by
    decide
  simp [heatmapBase, get_price_prediction, hcond]

theorem heatmapBase_nonneg (commodity : String) (u1 u2 u3 : ℚ) :
    0 ≤ heatmapBase commodity u1 u2 u3 := by
  rw [heatmapBase_eq]
  have h1 : 1200 ≤ base_prices (strLower commodity) := base_prices_ge _
  have h2 := abs_pyRound_sub_le (base_prices (strLower commodity) * (21/20))
  rw [abs_le] at h2
  linarith [h2.1, h2.2]

theorem strContains_append_left (a b n : String) (h : strContains a n = true) :
    strContains (a ++ b) n = true := by
  unfold strContains at h ⊢
  rw [String.data_append]
  exact decide_eq_true
    ((of_decide_eq_true h).trans (List.IsPrefix.isInfix (List.prefix_append _ _)))

/-! Demo data used by the witness theorems. -/

/-- The seeded `farmer` row (hash value is immaterial to the claims). -/
def demoUser : User :=
  ⟨"farmer", "oldhash", "farmer", "farmer@example.com", "+919876543210"⟩

/-- A one-row users table. -/
def demoDb : List User := [demoUser]

/-- A stand-in for `generate_password_hash` in witnesses. -/
def demoHash (s : String) : String := "hashed:" ++ s

/-! Claim theorems. -/

/-- C1: for every registered user and every identifier resolving to that user,
`send-otp` followed by `reset-password` with the exact issued code succeeds
(both 200), replaces the stored password hash with the hash of the new
password, removes the OTP entry, and a second `reset-password` reusing the
same code fails with 400. -/
theorem C1_send_then_reset_roundtrip (hash : String → String) (db : List User)
    (store : OtpStore) (identifier : String) (user : User)
    (h : find_by_identifier db identifier = some user)
    (draw : Nat) (tw : TwilioOutcome) (newPw : String) :
    (send_otp db store identifier draw tw).status = 200 ∧
    (reset_password hash db (send_otp db store identifier draw tw).store identifier
        (toString draw) newPw).status = 200 ∧
    find_by_identifier
        (reset_password hash db (send_otp db store identifier draw tw).store identifier
          (toString draw) newPw).db identifier
      = some { user with passwordHash := hash newPw } ∧
    otpLookup
        (reset_password hash db (send_otp db store identifier draw tw).store identifier
          (toString draw) newPw).store user.username = none ∧
    (reset_password hash
        (reset_password hash db (send_otp db store identifier draw tw).store identifier
          (toString draw) newPw).db
        (reset_password hash db (send_otp db store identifier draw tw).store identifier
          (toString draw) newPw).store
        identifier (toString draw) newPw).status = 400 := by
  have hstatus : (send_otp db store identifier draw tw).status = 200 := by
    cases tw <;> simp [send_otp, h]
  have hstore : (send_otp db store identifier draw tw).store
      = otpSet store user.username (toString draw) := by
    cases tw <;> simp [send_otp, h]
  have hreset : reset_password hash db (otpSet store user.username (toString draw))
      identifier (toString draw) newPw
      = ⟨200, "Password updated successfully",
          update_password db user.username (hash newPw),
          otpDel (otpSet store user.username (toString draw)) user.username⟩ := by
    simp [reset_password, h, otpLookup_otpSet_self]
  have hfind2 : find_by_identifier (update_password db user.username (hash newPw)) identifier
      = some { user with passwordHash := hash newPw } := by
    rw [find_by_identifier_update_password, h]
    simp
  refine ⟨hstatus, ?_, ?_, ?_, ?_⟩
  · rw [hstore, hreset]
  · rw [hstore, hreset]
    exact hfind2
  · rw [hstore, hreset]
    exact otpLookup_otpDel_self _ _
  · rw [hstore, hreset]
    simp [reset_password, hfind2, otpLookup_otpDel_self]

/-- C1 witness: concrete run with the seeded `farmer` row, resolved by email,
code 123456, SMS dispatch failing. -/
theorem C1_witness :
    find_by_identifier demoDb "farmer@example.com" = some demoUser ∧
    ((send_otp demoDb [] "farmer@example.com" 123456 .failed).status = 200 ∧
     (reset_password demoHash demoDb
        (send_otp demoDb [] "farmer@example.com" 123456 .failed).store "farmer@example.com"
        (toString 123456) "newpw").status = 200 ∧
     find_by_identifier
        (reset_password demoHash demoDb
          (send_otp demoDb [] "farmer@example.com" 123456 .failed).store "farmer@example.com"
          (toString 123456) "newpw").db "farmer@example.com"
       = some { demoUser with passwordHash := demoHash "newpw" } ∧
     otpLookup
        (reset_password demoHash demoDb
          (send_otp demoDb [] "farmer@example.com" 123456 .failed).store "farmer@example.com"
          (toString 123456) "newpw").store demoUser.username = none ∧
     (reset_password demoHash
        (reset_password demoHash demoDb
          (send_otp demoDb [] "farmer@example.com" 123456 .failed).store "farmer@example.com"
          (toString 123456) "newpw").db
        (reset_password demoHash demoDb
          (send_otp demoDb [] "farmer@example.com" 123456 .failed).store "farmer@example.com"
          (toString 123456) "newpw").store
        "farmer@example.com" (toString 123456) "newpw").status = 400) :=
  ⟨by decide,
   C1_send_then_reset_roundtrip demoHash demoDb [] "farmer@example.com" demoUser
     (by decide) 123456 .failed "newpw"⟩

/-- C2: `reset-password` accepts only an exact OTP match — when there is no
stored code for the resolved user or the submitted code differs, the whole
request returns 400 with message `Invalid or expired OTP` and leaves the
users table (hence the stored password hash) and the OTP store unchanged. -/
theorem C2_reset_rejects_mismatch (hash : String → String) (db : List User)
    (store : OtpStore) (identifier code newPw : String) (user : User)
    (h : find_by_identifier db identifier = some user)
    (hm : otpLookup store user.username ≠ some code) :
    reset_password hash db store identifier code newPw
      = ⟨400, "Invalid or expired OTP", db, store⟩ := by
  simp [reset_password, h, hm]

/-- C2 witness: the seeded row with an empty OTP store. -/
theorem C2_witness :
    find_by_identifier demoDb "farmer" = some demoUser ∧
    otpLookup [] demoUser.username ≠ some "111111" ∧
    reset_password demoHash demoDb [] "farmer" "111111" "newpw"
      = ⟨400, "Invalid or expired OTP", demoDb, []⟩ :=
  ⟨by decide, by decide,
   C2_reset_rejects_mismatch demoHash demoDb [] "farmer" "111111" "newpw" demoUser
     (by decide) (by decide)⟩

/-- C3 counterexample: the claim as stated fails when the second
`random.randint` draw repeats the first. With both draws equal to 123456, the
second issuance overwrites the first entry with the identical code, and
`reset-password` with the first (old) code succeeds (200) instead of failing. -/
theorem C3_counterexample :
    otpLookup
        (send_otp demoDb (send_otp demoDb [] "farmer" 123456 .notConfigured).store
          "farmer" 123456 .notConfigured).store "farmer" = some "123456" ∧
    (reset_password demoHash demoDb
        (send_otp demoDb (send_otp demoDb [] "farmer" 123456 .notConfigured).store
          "farmer" 123456 .notConfigured).store
        "farmer" (toString 123456) "newpw").status = 200 := by
  constructor
  · decide
  · decide

/-- C3 (amended): issuing a new OTP for a username overwrites the prior
entry — after the second issuance only the new code is stored — and, provided
the newly issued code differs from the old one, `reset-password` with the old
code fails with 400. -/
theorem C3_new_otp_invalidates_old (hash : String → String) (db : List User)
    (store : OtpStore) (identifier : String) (user : User)
    (h : find_by_identifier db identifier = some user)
    (oldDraw newDraw : Nat) (tw1 tw2 : TwilioOutcome) (newPw : String)
    (hne : toString newDraw ≠ toString oldDraw) :
    otpLookup
        (send_otp db (send_otp db store identifier oldDraw tw1).store identifier
          newDraw tw2).store user.username = some (toString newDraw) ∧
    (reset_password hash db
        (send_otp db (send_otp db store identifier oldDraw tw1).store identifier
          newDraw tw2).store
        identifier (toString oldDraw) newPw).status = 400 := by
  have hstore2 : (send_otp db (send_otp db store identifier oldDraw tw1).store identifier
      newDraw tw2).store
      = otpSet (send_otp db store identifier oldDraw tw1).store user.username
          (toString newDraw) := by
    cases tw2 <;> simp [send_otp, h]
  have hlook : otpLookup
      (otpSet (send_otp db store identifier oldDraw tw1).store user.username
        (toString newDraw)) user.username = some (toString newDraw) :=
    otpLookup_otpSet_self _ _ _
  refine ⟨by rw [hstore2]; exact hlook, ?_⟩
  rw [hstore2]
  have hmm : otpLookup
      (otpSet (send_otp db store identifier oldDraw tw1).store user.username
        (toString newDraw)) user.username ≠ some (toString oldDraw) := by
    rw [hlook]
    intro hc
    exact hne (Option.some_injective _ hc)
  simp [reset_password, h, hmm]

/-- C3 witness: draws 123456 then 654321; the old code is rejected. -/
theorem C3_witness :
    find_by_identifier demoDb "farmer" = some demoUser ∧
    toString 654321 ≠ toString 123456 ∧
    (otpLookup
        (send_otp demoDb (send_otp demoDb [] "farmer" 123456 .sent).store "farmer"
          654321 .notConfigured).store demoUser.username = some (toString 654321) ∧
     (reset_password demoHash demoDb
        (send_otp demoDb (send_otp demoDb [] "farmer" 123456 .sent).store "farmer"
          654321 .notConfigured).store
        "farmer" (toString 123456) "newpw").status = 400) :=
  ⟨by decide, by decide,
   C3_new_otp_invalidates_old demoHash demoDb [] "farmer" demoUser (by decide)
     123456 654321 .sent .notConfigured "newpw" (by decide)⟩

/-- C4: login maps a missing user and a wrong password to the identical
response — the same 401 error with message `Bad username or password` — so the
two runs are indistinguishable to the caller. -/
theorem C4_login_no_user_enumeration (check : String → String → Bool)
    (db1 db2 : List User) (name1 pw1 name2 pw2 : String) (user2 : User)
    (h1 : db1.find? (fun u => u.username == name1) = none)
    (h2 : db2.find? (fun u => u.username == name2) = some user2)
    (h3 : check user2.passwordHash pw2 = false) :
    login check db1 name1 pw1 = LoginResult.err 401 "Bad username or password" ∧
    login check db2 name2 pw2 = LoginResult.err 401 "Bad username or password" ∧
    login check db1 name1 pw1 = login check db2 name2 pw2 := by
  refine ⟨?_, ?_, ?_⟩ <;> simp [login, h1, h2, h3]

/-- C4 witness: unknown user `ghost` against an empty table versus the seeded
`farmer` row with a rejecting hash check. -/
theorem C4_witness :
    List.find? (fun u => u.username == "ghost") ([] : List User) = none ∧
    List.find? (fun u => u.username == "farmer") demoDb = some demoUser ∧
    (fun _ _ : String => false) demoUser.passwordHash "wrongpw" = false ∧
    (login (fun _ _ => false) [] "ghost" "x"
        = LoginResult.err 401 "Bad username or password" ∧
     login (fun _ _ => false) demoDb "farmer" "wrongpw"
        = LoginResult.err 401 "Bad username or password" ∧
     login (fun _ _ => false) [] "ghost" "x"
        = login (fun _ _ => false) demoDb "farmer" "wrongpw") :=
  ⟨by decide, by decide, by decide,
   C4_login_no_user_enumeration (fun _ _ => false) [] demoDb "ghost" "x" "farmer"
     "wrongpw" demoUser (by decide) (by decide) (by decide)⟩

/-- C8: for every identifier resolving to a registered user, `send-otp`
returns 200 under all three transport outcomes (SMS sent, SMS provider
raised, no provider configured); in each case the issued code is stored under
the user's username and a subsequent `reset-password` with it succeeds. -/
theorem C8_send_otp_delivery_nonfatal (hash : String → String) (db : List User)
    (store : OtpStore) (identifier : String) (user : User)
    (h : find_by_identifier db identifier = some user)
    (draw : Nat) (tw : TwilioOutcome) (newPw : String) :
    (send_otp db store identifier draw tw).status = 200 ∧
    otpLookup (send_otp db store identifier draw tw).store user.username
      = some (toString draw) ∧
    (reset_password hash db (send_otp db store identifier draw tw).store identifier
        (toString draw) newPw).status = 200 := by
  have hstore : (send_otp db store identifier draw tw).store
      = otpSet store user.username (toString draw) := by
    cases tw <;> simp [send_otp, h]
  refine ⟨by cases tw <;> simp [send_otp, h], ?_, ?_⟩
  · rw [hstore]
    exact otpLookup_otpSet_self _ _ _
  · rw [hstore]
    simp [reset_password, h, otpLookup_otpSet_self]

/-- C8 witness: the no-provider outcome with the seeded row resolved by
mobile number. -/
theorem C8_witness :
    find_by_identifier demoDb "+919876543210" = some demoUser ∧
    ((send_otp demoDb [] "+919876543210" 314159 .notConfigured).status = 200 ∧
     otpLookup (send_otp demoDb [] "+919876543210" 314159 .notConfigured).store
        demoUser.username = some (toString 314159) ∧
     (reset_password demoHash demoDb
        (send_otp demoDb [] "+919876543210" 314159 .notConfigured).store
        "+919876543210" (toString 314159) "newpw").status = 200) :=
  ⟨by decide,
   C8_send_otp_delivery_nonfatal demoHash demoDb [] "+919876543210" demoUser
     (by decide) 314159 .notConfigured "newpw"⟩

/-- C10: a failed OTP validation does not consume the stored entry — a
`reset-password` attempt with a non-matching code fails with 400 and leaves
the users table and OTP store unchanged, and an immediately subsequent attempt
with the correct code succeeds. -/
theorem C10_failed_attempt_preserves_otp (hash : String → String) (db : List User)
    (store : OtpStore) (identifier wrongCode rightCode newPw1 newPw2 : String)
    (user : User)
    (h : find_by_identifier db identifier = some user)
    (hs : otpLookup store user.username = some rightCode)
    (hne : wrongCode ≠ rightCode) :
    (reset_password hash db store identifier wrongCode newPw1).status = 400 ∧
    (reset_password hash db store identifier wrongCode newPw1).db = db ∧
    (reset_password hash db store identifier wrongCode newPw1).store = store ∧
    (reset_password hash (reset_password hash db store identifier wrongCode newPw1).db
        (reset_password hash db store identifier wrongCode newPw1).store identifier
        rightCode newPw2).status = 200 := by
  have hmm : otpLookup store user.username ≠ some wrongCode := by
    rw [hs]
    intro hc
    exact hne (Option.some_injective _ hc).symm
  have hfail : reset_password hash db store identifier wrongCode newPw1
      = ⟨400, "Invalid or expired OTP", db, store⟩ := by
    simp [reset_password, h, hmm]
  refine ⟨by rw [hfail], by rw [hfail], by rw [hfail], ?_⟩
  rw [hfail]
  simp [reset_password, h, hs]

/-- C10 witness: stored code 123456, wrong submission 000000, then the right
code. -/
theorem C10_witness :
    find_by_identifier demoDb "farmer" = some demoUser ∧
    otpLookup [("farmer", "123456")] demoUser.username = some "123456" ∧
    "000000" ≠ "123456" ∧
    ((reset_password demoHash demoDb [("farmer", "123456")] "farmer" "000000"
        "pw1").status = 400 ∧
     (reset_password demoHash demoDb [("farmer", "123456")] "farmer" "000000"
        "pw1").db = demoDb ∧
     (reset_password demoHash demoDb [("farmer", "123456")] "farmer" "000000"
        "pw1").store = [("farmer", "123456")] ∧
     (reset_password demoHash
        (reset_password demoHash demoDb [("farmer", "123456")] "farmer" "000000" "pw1").db
        (reset_password demoHash demoDb [("farmer", "123456")] "farmer" "000000" "pw1").store
        "farmer" "123456" "pw2").status = 200) :=
  ⟨by decide, by decide, by decide,
   C10_failed_attempt_preserves_otp demoHash demoDb [("farmer", "123456")] "farmer"
     "000000" "123456" "pw1" "pw2" demoUser (by decide) (by decide) (by decide)⟩

/-- C5 counterexample: the claim as stated — every per-state value within
±15% of the commodity's base price — fails. For wheat (base price 2200) the
endpoint first scales by the Delhi market factor 1.05 (base 2310); the
in-range draw 1.1 then yields the state value 2541, while 15% above 2200 is
only 2530. -/
theorem C5_counterexample :
    (handle_heatmap_data "wheat" 0 0 0 (fun _ => 11/10)).head?
      = some ("Andhra Pradesh", 2541) ∧
    (17 : ℚ)/20 ≤ 11/10 ∧ (11 : ℚ)/10 ≤ 23/20 ∧
    ¬ |((2541 : ℤ) : ℚ) - base_prices "wheat"| ≤ base_prices "wheat" * (15/100) := by
  refine ⟨by decide, by norm_num, by norm_num, by decide⟩

/-- C5 (amended): every per-state value of `GET /api/heatmap-data` lies
within ±15% of the endpoint's base price — the simulated day-0 Delhi average
price for the commodity — up to the half-unit slack of integer rounding. -/
theorem C5_heatmap_within_bounds (commodity : String) (u1 u2 u3 : ℚ)
    (draws : String → ℚ)
    (hd : ∀ s, 17/20 ≤ draws s ∧ draws s ≤ 23/20)
    (p : String × ℤ) (hp : p ∈ handle_heatmap_data commodity u1 u2 u3 draws) :
    |(p.2 : ℚ) - heatmapBase commodity u1 u2 u3|
      ≤ heatmapBase commodity u1 u2 u3 * (15/100) + 1/2 := by
  obtain ⟨s, _, rfl⟩ := List.mem_map.mp hp
  have hb : 0 ≤ heatmapBase commodity u1 u2 u3 := heatmapBase_nonneg commodity u1 u2 u3
  obtain ⟨hd1, hd2⟩ := hd s
  have h1 := abs_pyRound_sub_le (heatmapBase commodity u1 u2 u3 * draws s)
  have h2 : |heatmapBase commodity u1 u2 u3 * draws s - heatmapBase commodity u1 u2 u3|
      ≤ heatmapBase commodity u1 u2 u3 * (3/20) := by
    rw [show heatmapBase commodity u1 u2 u3 * draws s - heatmapBase commodity u1 u2 u3
        = heatmapBase commodity u1 u2 u3 * (draws s - 1) by ring,
      abs_mul, abs_of_nonneg hb]
    have h3 : |draws s - 1| ≤ 3/20 := abs_le.mpr ⟨by linarith, by linarith⟩
    exact mul_le_mul_of_nonneg_left h3 hb
  calc |((pyRound (heatmapBase commodity u1 u2 u3 * draws s) : ℤ) : ℚ)
        - heatmapBase commodity u1 u2 u3|
      ≤ |((pyRound (heatmapBase commodity u1 u2 u3 * draws s) : ℤ) : ℚ)
          - heatmapBase commodity u1 u2 u3 * draws s|
        + |heatmapBase commodity u1 u2 u3 * draws s - heatmapBase commodity u1 u2 u3| :=
        abs_sub_le _ _ _
    _ ≤ 1/2 + heatmapBase commodity u1 u2 u3 * (3/20) := add_le_add h1 h2
    _ = heatmapBase commodity u1 u2 u3 * (15/100) + 1/2 := by ring

/-- C5 witness: wheat with all draws equal to 1; the Andhra Pradesh value is
the base itself (2310) and satisfies the bound. -/
theorem C5_witness :
    ("Andhra Pradesh", (2310 : ℤ)) ∈ handle_heatmap_data "wheat" 0 0 0 (fun _ => 1) ∧
    |((2310 : ℤ) : ℚ) - heatmapBase "wheat" 0 0 0|
      ≤ heatmapBase "wheat" 0 0 0 * (15/100) + 1/2 :=
  ⟨by decide,
   C5_heatmap_within_bounds "wheat" 0 0 0 (fun _ => 1)
     (fun _ => ⟨by norm_num, by norm_num⟩) ("Andhra Pradesh", 2310) (by decide)⟩

/-- C6 counterexample: the Latin-script query `namaste` matches no greeting
keyword (`hello`, `hi`, `ನಮಸ್ಕಾರ`, `नमस्ते`), so with language `hi` the chat
returns the Hindi default response, not the Hindi greeting. -/
theorem C6_counterexample :
    handle_chat "namaste" "hi" .disabled 0 0 0 = chat_responses_hi.default ∧
    chat_responses_hi.default ≠ chat_responses_hi.greeting := by
  exact ⟨rfl, by decide⟩

/-- C6 (amended): the chat query `नमस्ते` (the Devanagari greeting keyword
that `namaste` transliterates) with language tag `hi` yields the localized
Hindi greeting, for every collaborator state and every draw. -/
theorem C6_hindi_greeting (gem : GeminiOutcome) (u1 u2 u3 : ℚ) :
    handle_chat "नमस्ते" "hi" gem u1 u2 u3 = chat_responses_hi.greeting := rfl

/-- C7: the chat query `what is the price of wheat in mumbai` with language
`en` yields the price-detail response: the English template instantiated with
`Wheat` and `Mumbai` and the simulated 7-day price formatted with thousands
separators and two decimals; the response contains `Wheat` and `Mumbai`. -/
theorem C7_wheat_mumbai_price_detail (gem : GeminiOutcome) (u1 u2 u3 : ℚ) :
    handle_chat "what is the price of wheat in mumbai" "en" gem u1 u2 u3
      = "The current simulated price for Wheat in Mumbai is around ₹"
        ++ formatPrice ((get_price_prediction "wheat" "Mumbai" 7 u1 u2 u3).average_price)
        ++ "/quintal. The trend is positive." ∧
    strContains (handle_chat "what is the price of wheat in mumbai" "en" gem u1 u2 u3)
      "Wheat" = true ∧
    strContains (handle_chat "what is the price of wheat in mumbai" "en" gem u1 u2 u3)
      "Mumbai" = true := by
  have heq : handle_chat "what is the price of wheat in mumbai" "en" gem u1 u2 u3
      = "The current simulated price for Wheat in Mumbai is around ₹"
        ++ formatPrice ((get_price_prediction "wheat" "Mumbai" 7 u1 u2 u3).average_price)
        ++ "/quintal. The trend is positive." := rfl
  refine ⟨heq, ?_, ?_⟩ <;> rw [heq]
  · exact strContains_append_left _ _ _ (strContains_append_left _ _ _ (by decide))
  · exact strContains_append_left _ _ _ (strContains_append_left _ _ _ (by decide))

/-- C9: when no chat rule matches, both a disabled and an erroring Gemini
collaborator produce the default canned localized response; the chat handler
is a total function, so the collaborator's failure never escapes to the
caller (the endpoint answers 200 with this body). -/
theorem C9_chat_fallback_swallows_failure (query lang : String) (u1 u2 u3 : ℚ)
    (h : ruleMatched (strLower query) = false) :
    handle_chat query lang .disabled u1 u2 u3 = (chat_responses_get lang).default ∧
    handle_chat query lang .errored u1 u2 u3 = (chat_responses_get lang).default := by
  have h' := h
  unfold ruleMatched at h'
  simp only [Bool.or_eq_false_iff] at h'
  obtain ⟨⟨⟨⟨h1, h2⟩, h3⟩, h4⟩, h5⟩ := h'
  have hfc : findCommodity (strLower query) = none := by
    cases hfc : findCommodity (strLower query) with
    | none => rfl
    | some c => rw [hfc] at h2; simp at h2
  constructor <;> simp [handle_chat, h1, h3, h4, h5, hfc]

/-- C9 witness: the unmatched query `zzz` in English. -/
theorem C9_witness :
    ruleMatched (strLower "zzz") = false ∧
    (handle_chat "zzz" "en" .disabled 0 0 0 = (chat_responses_get "en").default ∧
     handle_chat "zzz" "en" .errored 0 0 0 = (chat_responses_get "en").default) :=
  ⟨by decide, C9_chat_fallback_swallows_failure "zzz" "en" 0 0 0 (by decide)⟩

end AgroBert
